import Mathlib

/-!
Shallow embedding of the retrieval-augmented narrative pipeline of the
Hometown Atlas / UrbanScribe repository (src/app/knowledge_base.py,
src/app/services.py, src/app/service.py, src/app/model.py).

External collaborators (the MongoDB client, the FAISS index, the embedding
oracle and the generation oracle) are modelled as explicit state and oracle
parameters; the orchestration code of the repository is translated function
by function.  JSON values, as produced by json.loads, are modelled by the
inductive type Json below.
-/

namespace Atlas

/-- JSON values as produced by json.loads.  Numbers are modelled as integers
(no claim depends on non-integral numerics). -/
inductive Json where
  | null : Json
  | bool : Bool → Json
  | num : Int → Json
  | str : String → Json
  | arr : List Json → Json
  | obj : List (String × Json) → Json
deriving Repr

/-- Python dict.get(key, default) on a JSON value.  The profiles handled by
this core are always objects (see the write-shape invariant proved for C9);
on a non-object the default is returned. -/
def jsonGetD (j : Json) (k : String) (d : Json) : Json :=
  match j with
  | .obj fs => (fs.lookup k).getD d
  | _ => d

mutual

/-- Python str()/repr() rendering of a JSON value, as interpolated by the
f-strings of services.py (quote escaping inside strings is not modelled; no
claim depends on it). -/
def pyRepr : Json → String
  | .null => "None"
  | .bool b => bif b then "True" else "False"
  | .num n => toString n
  | .str s => "\x27" ++ s ++ "\x27"
  | .arr xs => "[" ++ pyReprList xs ++ "]"
  | .obj fs => "\x7b" ++ pyReprFields fs ++ "\x7d"

def pyReprList : List Json → String
  | [] => ""
  | [x] => pyRepr x
  | x :: y :: rest => pyRepr x ++ ", " ++ pyReprList (y :: rest)

def pyReprFields : List (String × Json) → String
  | [] => ""
  | [(k, v)] => "\x27" ++ k ++ "\x27: " ++ pyRepr v
  | (k, v) :: f :: rest => "\x27" ++ k ++ "\x27: " ++ pyRepr v ++ ", " ++ pyReprFields (f :: rest)

end

/-- Events recording every collaborator interaction performed by the
pipeline (store reads/writes, embedding calls, index searches, generation
oracle calls). -/
inductive Event where
  | prefRead : String → Event
  | prefWrite : String → Json → Event
  | embedCall : String → Event
  | indexSearch : Nat → Event
  | llmCall : String → Event
deriving Repr

def isStoreWrite : Event → Bool
  | .prefWrite _ _ => true
  | _ => false

def isStoreRead : Event → Bool
  | .prefRead _ => true
  | _ => false

/-! ## Preference Store (MongoDB users collection, knowledge_base.py) -/

/-- A MongoDB document, minus its _id key: an association list of fields. -/
abbrev Document := List (String × Json)

/-- State of the MongoDB backend: whether get_db_client() yields a client
(None on connection failure), and the users collection keyed by _id. -/
structure DbState where
  reachable : Bool
  users : List (String × Document)
deriving Repr

/-- The default profile dict literal of knowledge_base.get_user_preferences. -/
def emptyPrefsJson : Json :=
  .obj [("likes", .arr []), ("dislikes", .arr [])]

/-- knowledge_base.get_user_preferences: returns the preferences sub-object
of the user document, or the default empty profile when the client is
unavailable, the document is absent, or the document lacks a preferences
field.  The second component records the store operations performed
(find_one runs only when a client exists). -/
def get_user_preferences (db : DbState) (uid : String) : Json × List Event :=
  if !db.reachable then (emptyPrefsJson, [])
  else
    (match db.users.lookup uid with
      | none => emptyPrefsJson
      | some doc => (doc.lookup "preferences").getD emptyPrefsJson,
     [.prefRead uid])

/-- MongoDB $set of a single field on a document: replaces the field in
place, or appends it. -/
def setField (doc : Document) (k : String) (v : Json) : Document :=
  match doc with
  | [] => [(k, v)]
  | (k0, v0) :: rest =>
      if k0 == k then (k0, v) :: rest else (k0, v0) :: setField rest k v

/-- update_one({_id: uid}, {$set: {preferences: prefs}}, upsert=True) on the
users collection. -/
def upsertUser (users : List (String × Document)) (uid : String) (prefs : Json) :
    List (String × Document) :=
  match users with
  | [] => [(uid, [("preferences", prefs)])]
  | (u, doc) :: rest =>
      if u == uid then (u, setField doc "preferences" prefs) :: rest
      else (u, doc) :: upsertUser rest uid prefs

/-- knowledge_base.update_user_preferences: upserts the preference profile,
or does nothing (beyond a UI warning) when the client is unavailable.  The
Python function returns None on every path and raises on none. -/
def update_user_preferences (db : DbState) (uid : String) (prefs : Json) :
    DbState × List Event :=
  if !db.reachable then (db, [])
  else ({ db with users := upsertUser db.users uid prefs }, [.prefWrite uid prefs])

/-! ## Knowledge base search (FAISS index, knowledge_base.py) -/

/-- State of the FAISS index and the pickled chunk corpus: whether
faiss.read_index succeeded, the chunk texts of data.pkl ([] on load
failure), and the nearest-neighbor ranking the index reports for the
current query vector (ids into the stored vectors, one per stored vector,
treated as an opaque oracle answer). -/
structure KnowledgeBase where
  faissAvailable : Bool
  texts : List String
  order : List Nat
deriving Repr, DecidableEq

/-- FAISS Index.search label output for one query: the top min(k, ntotal)
stored-vector ids, padded to length k with -1 when the index holds fewer
than k vectors. -/
def faissSearchIndices (order : List Nat) (k : Nat) : List Int :=
  (order.take k).map Int.ofNat ++
    List.replicate (k - (order.take k).length) (-1)

/-- Python list indexing xs[i]: negative indices wrap around from the end;
out-of-range access raises IndexError (modelled as none). -/
def pythonListGet (xs : List α) (i : Int) : Option α :=
  if 0 ≤ i then xs.get? i.toNat
  else if i.natAbs ≤ xs.length then xs.get? (xs.length - i.natAbs)
  else none

/-- The sentinel string search_knowledge_base returns when the index or the
corpus is unavailable. -/
def kbSentinel : String := "Knowledge base is currently unavailable."

/-- The fixed delimiter joining retrieved chunks. -/
def chunkSep : String := "\n\n---\n\n"

/-- The list comprehension [knowledge_base_texts[i] for i in indices[0]] of
search_knowledge_base (none models an IndexError escaping it). -/
def retrievedChunks (kb : KnowledgeBase) (k : Nat) : Option (List String) :=
  (faissSearchIndices kb.order k).mapM (pythonListGet kb.texts)

/-- knowledge_base.search_knowledge_base: returns the sentinel sentence when
the index failed to load or the chunk corpus is empty, else the retrieved
chunks joined by the fixed delimiter. -/
def search_knowledge_base (kb : KnowledgeBase) (k : Nat := 5) : Option String :=
  if !kb.faissAvailable || kb.texts.isEmpty then some kbSentinel
  else (retrievedChunks kb k).map (String.intercalate chunkSep)

/-! ## Pydantic models (model.py) -/

/-- models.UserPreferences: likes and dislikes, both defaulting to the empty
list via Field(default_factory=list). -/
structure UserPreferences where
  likes : List String
  dislikes : List String
deriving Repr, DecidableEq

/-- Pydantic v1 coercion into a str field: strings pass through, numbers and
booleans are coerced to their text form; None, lists and objects are
rejected with a ValidationError. -/
def coerceStr : Json → Option String
  | .str s => some s
  | .num n => some (toString n)
  | .bool b => some (bif b then "True" else "False")
  | _ => none

/-- Pydantic v1 validation of a List[str] field: the value must be a JSON
array and every element must coerce to str. -/
def coerceStrList : Json → Option (List String)
  | .arr xs => xs.mapM coerceStr
  | _ => none

/-- Validation of one List[str] field of UserPreferences: an absent key
takes the default_factory value [], a present key must validate as a list
of strings. -/
def fieldStrList (fs : List (String × Json)) (k : String) : Option (List String) :=
  match fs.lookup k with
  | none => some []
  | some v => coerceStrList v

/-- models.UserPreferences(**data): requires a JSON object (anything else
raises before validation); unknown keys are ignored (pydantic v1 default
Config.extra), missing keys take their empty-list defaults. -/
def validateUserPreferences : Json → Option UserPreferences
  | .obj fs => do
      let likes ← fieldStrList fs "likes"
      let dislikes ← fieldStrList fs "dislikes"
      pure ⟨likes, dislikes⟩
  | _ => none

/-- validated_prefs.dict(): the exact document written to the store — an
object with exactly the keys likes and dislikes, each an array of strings. -/
def prefsToJson (p : UserPreferences) : Json :=
  .obj [("likes", .arr (p.likes.map .str)), ("dislikes", .arr (p.dislikes.map .str))]

/-- models.JourneyNarrative: the four-field output schema. -/
structure JourneyNarrative where
  title : String
  narrative : String
  fun_fact : String
  location_awareness : String
deriving Repr, DecidableEq

/-- Pydantic validation of JourneyNarrative from a JSON value (the
parse_obj step of PydanticOutputParser): all four fields are required (a
missing key is a ValidationError), each value must coerce to str; the
empty string is an acceptable str value. -/
def validateJourneyNarrative : Json → Option JourneyNarrative
  | .obj fs => do
      let tv ← fs.lookup "title"
      let t ← coerceStr tv
      let nv ← fs.lookup "narrative"
      let n ← coerceStr nv
      let fv ← fs.lookup "fun_fact"
      let f ← coerceStr fv
      let lv ← fs.lookup "location_awareness"
      let l ← coerceStr lv
      pure ⟨t, n, f, l⟩
  | _ => none

/-- models.JourneyRequest (coordinates are carried opaquely; no claim uses
them numerically). -/
structure JourneyRequest where
  user_id : String
  latitude : Float
  longitude : Float
  city : String
  query : String
  destination_poi_id : String
deriving Repr

/-- models.ReflectionRequest. -/
structure ReflectionRequest where
  user_id : String
  original_query : String
  journey_title : String
  user_feedback : String
deriving Repr, DecidableEq

/-! ## Pipeline state and oracles (services.py) -/

/-- Combined external state visible to one pipeline call. -/
structure World where
  db : DbState
  kb : KnowledgeBase
deriving Repr

/-- Outcomes of the collaborators a narrative-generation call consults:
whether embedding_model.encode returns (rather than raising), whether
llm.invoke returns, the JSON value PydanticOutputParser extracts from the
response text (none when no parseable JSON is found), and the text of
parser.get_format_instructions(). -/
structure NarrativeOracles where
  embedOk : Bool
  llmOk : Bool
  llmJson : Option Json
  formatInstructions : String
deriving Repr

/-- Failure modes of a narrative-generation call: the exception class that
escapes to the caller.  prefReadFailure is a preference-store read failure
escaping the call; it is part of the error vocabulary so that its absence
is expressible (claim C4), and no code path produces it. -/
inductive GenError where
  | retrievalError
  | indexError
  | llmError
  | formatError
  | prefReadFailure
deriving Repr, DecidableEq

/-- The preferences_text f-string of services.generate_narrative_with_rag. -/
def preferencesTextOf (userPrefs : Json) : String :=
  "This user\x27s known preferences are: Likes: " ++
    pyRepr (jsonGetD userPrefs "likes" (.arr [])) ++
    ", Dislikes: " ++
    pyRepr (jsonGetD userPrefs "dislikes" (.arr [])) ++ "."

/-- The narrative prompt f-string of services.generate_narrative_with_rag,
with each interpolation slot made explicit. -/
def narrativePrompt (city destinationName preferencesText goalQuery contextText formatInstructions : String) : String :=
  "\n    You are a Hometown Atlas, a precise and context-aware AI travel guide.\n     for African Cities and Cultures\n    Your primary goal is to generate a narrative for a user\x27s journey to a specific destination and enrich the journey with fascinating stories like a tourist guide.\n\n    **CRITICAL INSTRUCTIONS:**\n    1.  **STAY LOCAL:** The user is in **" ++
    city ++
    "**. All descriptions, landmarks, and facts MUST be relevant to **" ++
    city ++
    "**. Do NOT mention places from other cities or countries.\n    2.  **DESTINATION FOCUS:** The user wants to go to **" ++
    destinationName ++
    "**. The narrative should be about the journey TO this specific place.\n    3.  **USE THE CONTEXT:** The following \x27Retrieved Context\x27 is your primary source of truth. Base your narrative on this information.\n    4.  **FALLBACK PLAN:** If the \x27Retrieved Context\x27 is empty or not helpful, generate a rich, interesting description of the destination, **" ++
    destinationName ++
    "**, itself.\n    5.  **USER PROFILE:** Consider the user\x27s preferences: " ++
    preferencesText ++
    ".\n\n    **User\x27s Goal:** \"" ++
    goalQuery ++
    "\"\n    **Retrieved Context from Knowledge Base:**\n    " ++
    contextText ++
    "\n    ---\n    Now, generate the narrative based on these strict instructions.\n    " ++
    formatInstructions ++
    "\n    "

/-- services.generate_narrative_with_rag: read preferences, embed the query,
search the knowledge base, build the prompt, invoke the generation oracle
once and parse its output into JourneyNarrative.  The result pairs the
returned narrative (or the escaping exception class) with the trace of
collaborator interactions. -/
def generate_narrative_with_rag (w : World) (o : NarrativeOracles)
    (request : JourneyRequest) (destinationName : String) :
    Except GenError JourneyNarrative × List Event :=
  let gp := get_user_preferences w.db request.user_id
  let preferencesText := preferencesTextOf gp.1
  if !o.embedOk then (.error .retrievalError, gp.2 ++ [.embedCall request.query])
  else
    let ev2 := gp.2 ++ [.embedCall request.query, .indexSearch 5]
    match search_knowledge_base w.kb 5 with
    | none => (.error .indexError, ev2)
    | some context =>
      let prompt := narrativePrompt request.city destinationName preferencesText
        request.query context o.formatInstructions
      let ev3 := ev2 ++ [.llmCall prompt]
      if !o.llmOk then (.error .llmError, ev3)
      else
        match o.llmJson with
        | none => (.error .formatError, ev3)
        | some j =>
          match validateJourneyNarrative j with
          | none => (.error .formatError, ev3)
          | some n => (.ok n, ev3)

/-- The narrative prompt f-string of the async revision
service.generate_narrative_with_rag (UrbanScribe). -/
def urbanScribePrompt (goalQuery preferencesText contextText formatInstructions : String) : String :=
  "\n    You are UrbanScribe, an intelligent city storyteller. Your task is to create a personalized journey narrative.\n\n    **User\x27s Goal:** \"" ++
    goalQuery ++
    "\"\n    \n    **User\x27s Profile:** " ++
    preferencesText ++
    "\n    \n    **Retrieved Context from Knowledge Base:**\n    ---\n    " ++
    contextText ++
    "\n    ---\n    \n    Based on ALL the information above, generate a compelling and tailored narrative for the user\x27s journey.\n    The narrative should directly incorporate the user\x27s preferences and the retrieved context.\n    \n    **Output Instructions:**\n    " ++
    formatInstructions ++
    "\n    "

/-- service.generate_narrative_with_rag (the async FastAPI revision): same
pipeline shape as the services.py revision — one preference read, one
embedding call, one index search, one generation call, no store write. -/
def service_generate_narrative_with_rag (w : World) (o : NarrativeOracles)
    (request : JourneyRequest) :
    Except GenError JourneyNarrative × List Event :=
  let gp := get_user_preferences w.db request.user_id
  let preferencesText := preferencesTextOf gp.1
  if !o.embedOk then (.error .retrievalError, gp.2 ++ [.embedCall request.query])
  else
    let ev2 := gp.2 ++ [.embedCall request.query, .indexSearch 5]
    match search_knowledge_base w.kb 5 with
    | none => (.error .indexError, ev2)
    | some context =>
      let prompt := urbanScribePrompt request.query preferencesText context
        o.formatInstructions
      let ev3 := ev2 ++ [.llmCall prompt]
      if !o.llmOk then (.error .llmError, ev3)
      else
        match o.llmJson with
        | none => (.error .formatError, ev3)
        | some j =>
          match validateJourneyNarrative j with
          | none => (.error .formatError, ev3)
          | some n => (.ok n, ev3)

/-- The reflection prompt f-string of services.reflect_and_update_preferences. -/
def reflectionPrompt (currentPrefs : Json) (originalQuery journeyTitle userFeedback : String) : String :=
  "\n    You are a user preference analysis AI. Your job is to update a user\x27s preference profile based on their recent activity.\n    Analyze the interaction below and update the \x27likes\x27 and \x27dislikes\x27 lists.\n    - Infer general topics from the query and title (e.g., \x27quiet walk\x27 -> \x27quiet\x27, \x27historical tour\x27 -> \x27history\x27).\n    - If the user \x27liked\x27 the journey, add the inferred topics to their \x27likes\x27.\n    - If they \x27disliked\x27 it, add the inferred topics to their \x27dislikes\x27.\n    - Do not add duplicate items. Keep the lists concise and lowercase.\n\n    **Current User Profile:** " ++
    pyRepr currentPrefs ++
    "\n    **User\x27s Recent Activity:**\n    - Initial Query: \"" ++
    originalQuery ++
    "\"\n    - Journey Title: \"" ++
    journeyTitle ++
    "\"\n    - Feedback: \"" ++
    userFeedback ++
    "\"\n\n    **Your Task:** Respond ONLY with the updated JSON object for the \x27preferences\x27 field and nothing else.\n    Example response: \x7b\"likes\": [\"history\", \"quiet\"], \"dislikes\": [\"crowded\"]\x7d\n    "

/-- services.reflect_and_update_preferences: read the current profile,
invoke the generation oracle with the reflection prompt, then inside the
try block parse the cleaned response as JSON (respJson is the json.loads
outcome on the cleaned response text), validate it with
models.UserPreferences, and upsert the validated .dict() — any parse or
validation failure is caught by the broad except clause and performs no
write. -/
def reflect_and_update_preferences (w : World) (respJson : Option Json)
    (request : ReflectionRequest) : World × List Event :=
  let gp := get_user_preferences w.db request.user_id
  let prompt := reflectionPrompt gp.1 request.original_query
    request.journey_title request.user_feedback
  let ev2 := gp.2 ++ [.llmCall prompt]
  match respJson with
  | none => (w, ev2)
  | some j =>
    match validateUserPreferences j with
    | none => (w, ev2)
    | some p =>
      let upd := update_user_preferences w.db request.user_id (prefsToJson p)
      ({ w with db := upd.1 }, ev2 ++ upd.2)

/-! ## Helper lemmas -/

lemma search_unavailable (kb : KnowledgeBase) (k : Nat)
    (h : kb.faissAvailable = false ∨ kb.texts = []) :
    search_knowledge_base kb k = some kbSentinel := by
  rcases h with h | h <;> simp [search_knowledge_base, h]

lemma generate_events_of_search (w : World) (o : NarrativeOracles)
    (request : JourneyRequest) (destinationName : String) (ctx : String)
    (hembed : o.embedOk = true)
    (hsearch : search_knowledge_base w.kb 5 = some ctx) :
    (generate_narrative_with_rag w o request destinationName).2 =
      (get_user_preferences w.db request.user_id).2 ++
        [.embedCall request.query, .indexSearch 5,
         .llmCall (narrativePrompt request.city destinationName
           (preferencesTextOf (get_user_preferences w.db request.user_id).1)
           request.query ctx o.formatInstructions)] := by
  unfold generate_narrative_with_rag
  simp only [hembed, hsearch, Bool.not_true, Bool.false_eq_true, if_false]
  split <;> [skip; split] <;> simp
  split <;> simp

lemma lookup_setField_self (doc : Document) (k : String) (v : Json) :
    (setField doc k v).lookup k = some v := by
  induction doc with
  | nil => simp [setField, List.lookup]
  | cons hd tl ih =>
    obtain ⟨k0, v0⟩ := hd
    by_cases h : k0 = k
    · simp [setField, h, List.lookup]
    · have h2 : (k0 == k) = false := by
        simp only [beq_eq_false_iff_ne]; exact h
      have h3 : (k == k0) = false := by
        simp only [beq_eq_false_iff_ne]; exact fun he => h he.symm
      simp [setField, h2, h3, List.lookup, ih]

lemma lookup_upsertUser_self (users : List (String × Document)) (uid : String)
    (prefs : Json) :
    ∃ doc, (upsertUser users uid prefs).lookup uid = some doc ∧
      doc.lookup "preferences" = some prefs := by
  induction users with
  | nil =>
    refine ⟨[("preferences", prefs)], ?_, ?_⟩ <;> simp [upsertUser, List.lookup]
  | cons hd tl ih =>
    obtain ⟨u, doc⟩ := hd
    by_cases h : u = uid
    · refine ⟨setField doc "preferences" prefs, ?_, lookup_setField_self doc _ prefs⟩
      simp [upsertUser, h, List.lookup]
    · have h2 : (u == uid) = false := by
        simp only [beq_eq_false_iff_ne]; exact h
      have h3 : (uid == u) = false := by
        simp only [beq_eq_false_iff_ne]; exact fun he => h he.symm
      obtain ⟨doc2, hl, hp⟩ := ih
      exact ⟨doc2, by simp [upsertUser, h2, h3, List.lookup, hl], hp⟩

lemma validateJourneyNarrative_some (j : Json) (n : JourneyNarrative)
    (h : validateJourneyNarrative j = some n) :
    ∃ fs, j = .obj fs ∧ (fs.lookup "title").isSome ∧
      (fs.lookup "narrative").isSome ∧ (fs.lookup "fun_fact").isSome ∧
      (fs.lookup "location_awareness").isSome := by
  cases j with
  | obj fs =>
    rcases ht : fs.lookup "title" with _ | tv
    · simp [validateJourneyNarrative, ht] at h
    · rcases hct : coerceStr tv with _ | t
      · simp [validateJourneyNarrative, ht, hct] at h
      · rcases hn : fs.lookup "narrative" with _ | nv
        · simp [validateJourneyNarrative, ht, hct, hn] at h
        · rcases hcn : coerceStr nv with _ | n2
          · simp [validateJourneyNarrative, ht, hct, hn, hcn] at h
          · rcases hf : fs.lookup "fun_fact" with _ | fv
            · simp [validateJourneyNarrative, ht, hct, hn, hcn, hf] at h
            · rcases hcf : coerceStr fv with _ | f2
              · simp [validateJourneyNarrative, ht, hct, hn, hcn, hf, hcf] at h
              · rcases hl : fs.lookup "location_awareness" with _ | lv
                · simp [validateJourneyNarrative, ht, hct, hn, hcn, hf, hcf, hl] at h
                · exact ⟨fs, rfl, by simp [ht], by simp [hn], by simp [hf], by simp [hl]⟩
  | null => simp [validateJourneyNarrative] at h
  | bool b => simp [validateJourneyNarrative] at h
  | num n2 => simp [validateJourneyNarrative] at h
  | str s => simp [validateJourneyNarrative] at h
  | arr xs => simp [validateJourneyNarrative] at h

lemma pythonListGet_ofNat (xs : List String) (i : Nat) (h : i < xs.length) :
    pythonListGet xs (Int.ofNat i) = some (xs.getD i "") := by
  have h0 : (0 : Int) ≤ Int.ofNat i := Int.ofNat_nonneg i
  have h1 : (Int.ofNat i).toNat = i := rfl
  simp only [pythonListGet, h0, if_true, h1]
  rw [List.get?_eq_getElem?, List.getElem?_eq_getElem h]
  simp [List.getD, List.get?_eq_getElem?, List.getElem?_eq_getElem h]

lemma pythonListGet_neg_one (xs : List String) (h : xs ≠ []) :
    pythonListGet xs (-1) = xs.getLast? := by
  have hl : 0 < xs.length := List.length_pos.mpr h
  simp only [pythonListGet]
  rw [if_neg (by decide)]
  rw [if_pos (by simpa using hl)]
  rw [List.get?_eq_getElem?, List.getLast?_eq_getElem?]
  norm_num

lemma mapM_pythonListGet_map_ofNat (xs : List String) (order : List Nat)
    (h : ∀ i ∈ order, i < xs.length) :
    (order.map Int.ofNat).mapM (pythonListGet xs) =
      some (order.map (fun i => xs.getD i "")) := by
  induction order with
  | nil => rfl
  | cons a tl ih =>
    have ha : a < xs.length := h a (by simp)
    have htl : ∀ i ∈ tl, i < xs.length := fun i hi => h i (by simp [hi])
    rw [List.map_cons, List.mapM_cons, pythonListGet_ofNat xs a ha, ih htl,
      List.map_cons]
    rfl

lemma mapM_pythonListGet_replicate_neg_one (xs : List String) (h : xs ≠ [])
    (n : Nat) :
    (List.replicate n (-1 : Int)).mapM (pythonListGet xs) =
      some (List.replicate n (xs.getLast?.getD "")) := by
  have hg : pythonListGet xs (-1) = some (xs.getLast?.getD "") := by
    rw [pythonListGet_neg_one xs h]
    rcases hx : xs.getLast? with _ | y
    · exact absurd (List.getLast?_eq_none_iff.mp hx) h
    · simp
  induction n with
  | zero => rfl
  | succ m ih =>
    rw [List.replicate_succ, List.mapM_cons, hg, ih, List.replicate_succ]
    rfl

lemma retrievedChunks_short_order (kb : KnowledgeBase) (k : Nat)
    (hval : ∀ i ∈ kb.order, i < kb.texts.length)
    (hne : kb.texts ≠ [])
    (hlen : kb.order.length ≤ k) :
    retrievedChunks kb k =
      some (kb.order.map (fun i => kb.texts.getD i "") ++
        List.replicate (k - kb.order.length) (kb.texts.getLast?.getD "")) := by
  unfold retrievedChunks faissSearchIndices
  rw [List.take_of_length_le hlen, List.mapM_append,
    mapM_pythonListGet_map_ofNat kb.texts kb.order hval,
    mapM_pythonListGet_replicate_neg_one kb.texts hne]
  simp

lemma get_user_preferences_events (db : DbState) (uid : String) :
    (get_user_preferences db uid).2 =
      if db.reachable then [.prefRead uid] else [] := by
  cases h : db.reachable <;> simp [get_user_preferences, h]

lemma prefs_events_filter_write (db : DbState) (uid : String) :
    ((get_user_preferences db uid).2).filter isStoreWrite = [] := by
  rw [get_user_preferences_events]
  cases h : db.reachable <;> simp [isStoreWrite]

lemma prefs_events_filter_read (db : DbState) (uid : String) :
    ((get_user_preferences db uid).2).filter isStoreRead =
      if db.reachable then [Event.prefRead uid] else [] := by
  rw [get_user_preferences_events]
  cases h : db.reachable <;> simp [h, isStoreRead]

lemma generate_events_shape (w : World) (o : NarrativeOracles)
    (request : JourneyRequest) (destinationName : String) :
    ∃ tail : List Event,
      (generate_narrative_with_rag w o request destinationName).2 =
        (get_user_preferences w.db request.user_id).2 ++ tail ∧
      tail.filter isStoreWrite = [] ∧ tail.filter isStoreRead = [] ∧
      Event.embedCall request.query ∈ tail := by
  obtain ⟨embedOk, llmOk, llmJson, fmt⟩ := o
  cases embedOk
  · exact ⟨[.embedCall request.query],
      by simp [generate_narrative_with_rag], rfl, rfl, by simp⟩
  · rcases hs : search_knowledge_base w.kb 5 with _ | ctx
    · exact ⟨[.embedCall request.query, .indexSearch 5],
        by simp [generate_narrative_with_rag, hs], rfl, rfl, by simp⟩
    · refine ⟨[.embedCall request.query, .indexSearch 5,
        .llmCall (narrativePrompt request.city destinationName
          (preferencesTextOf (get_user_preferences w.db request.user_id).1)
          request.query ctx fmt)], ?_, rfl, rfl, by simp⟩
      cases llmOk
      · simp [generate_narrative_with_rag, hs]
      · rcases llmJson with _ | j
        · simp [generate_narrative_with_rag, hs]
        · rcases hv : validateJourneyNarrative j with _ | n <;>
            simp [generate_narrative_with_rag, hs, hv]

lemma service_generate_events_shape (w : World) (o : NarrativeOracles)
    (request : JourneyRequest) :
    ∃ tail : List Event,
      (service_generate_narrative_with_rag w o request).2 =
        (get_user_preferences w.db request.user_id).2 ++ tail ∧
      tail.filter isStoreWrite = [] ∧ tail.filter isStoreRead = [] ∧
      Event.embedCall request.query ∈ tail := by
  obtain ⟨embedOk, llmOk, llmJson, fmt⟩ := o
  cases embedOk
  · exact ⟨[.embedCall request.query],
      by simp [service_generate_narrative_with_rag], rfl, rfl, by simp⟩
  · rcases hs : search_knowledge_base w.kb 5 with _ | ctx
    · exact ⟨[.embedCall request.query, .indexSearch 5],
        by simp [service_generate_narrative_with_rag, hs], rfl, rfl, by simp⟩
    · refine ⟨[.embedCall request.query, .indexSearch 5,
        .llmCall (urbanScribePrompt request.query
          (preferencesTextOf (get_user_preferences w.db request.user_id).1)
          ctx fmt)], ?_, rfl, rfl, by simp⟩
      cases llmOk
      · simp [service_generate_narrative_with_rag, hs]
      · rcases llmJson with _ | j
        · simp [service_generate_narrative_with_rag, hs]
        · rcases hv : validateJourneyNarrative j with _ | n <;>
            simp [service_generate_narrative_with_rag, hs, hv]

lemma reflect_no_write (w : World) (resp : Option Json)
    (request : ReflectionRequest)
    (h : resp = none ∨ ∃ j, resp = some j ∧ validateUserPreferences j = none) :
    reflect_and_update_preferences w resp request =
      (w, (get_user_preferences w.db request.user_id).2 ++
        [.llmCall (reflectionPrompt (get_user_preferences w.db request.user_id).1
          request.original_query request.journey_title request.user_feedback)]) := by
  rcases h with h | ⟨j, hj, hv⟩
  · subst h; rfl
  · subst hj; simp [reflect_and_update_preferences, hv]

lemma generate_ok_inversion (w : World) (o : NarrativeOracles)
    (request : JourneyRequest) (destinationName : String)
    (n : JourneyNarrative) (evs : List Event)
    (h : generate_narrative_with_rag w o request destinationName = (.ok n, evs)) :
    ∃ j, o.llmJson = some j ∧ validateJourneyNarrative j = some n := by
  obtain ⟨embedOk, llmOk, llmJson, fmt⟩ := o
  cases embedOk
  · simp [generate_narrative_with_rag] at h
  · rcases hs : search_knowledge_base w.kb 5 with _ | ctx
    · simp [generate_narrative_with_rag, hs] at h
    · cases llmOk
      · simp [generate_narrative_with_rag, hs] at h
      · rcases llmJson with _ | j
        · simp [generate_narrative_with_rag, hs] at h
        · rcases hv : validateJourneyNarrative j with _ | n2
          · simp [generate_narrative_with_rag, hs, hv] at h
          · refine ⟨j, rfl, ?_⟩
            simp [generate_narrative_with_rag, hs, hv] at h
            rw [hv]
            simp [h.1]

/-! ## Concrete fixtures used by counterexamples and witnesses -/

/-- Knowledge-base state where faiss.read_index failed. -/
def kbDown : KnowledgeBase := { faissAvailable := false, texts := [], order := [] }

/-- Knowledge-base state holding a single chunk, queried with k = 5. -/
def kbOne : KnowledgeBase := { faissAvailable := true, texts := ["only chunk"], order := [0] }

/-- Reachable store with no user documents. -/
def dbEmpty : DbState := { reachable := true, users := [] }

/-- Reachable store where user u1 already likes history. -/
def dbHist : DbState :=
  { reachable := true,
    users := [("u1", [("preferences",
      Json.obj [("likes", Json.arr [Json.str "history"]),
                ("dislikes", Json.arr [])])])] }

/-- Unreachable store. -/
def dbDown : DbState := { reachable := false, users := [] }

def wDown : World := { db := dbEmpty, kb := kbDown }

def wHist : World := { db := dbHist, kb := kbDown }

def wUnreach : World := { db := dbDown, kb := kbDown }

def reqQuiet : JourneyRequest :=
  { user_id := "u1", latitude := 6.855, longitude := 7.38, city := "Nsukka",
    query := "quiet walk", destination_poi_id := "poi_unn_01" }

def reqEmptyQuery : JourneyRequest :=
  { user_id := "u1", latitude := 6.855, longitude := 7.38, city := "Nsukka",
    query := "", destination_poi_id := "poi_unn_01" }

def rrLiked : ReflectionRequest :=
  { user_id := "u1", original_query := "quiet walk",
    journey_title := "A Walk", user_feedback := "liked" }

/-- Oracles whose generation response contains no parseable JSON. -/
def oPlain : NarrativeOracles :=
  { embedOk := true, llmOk := true, llmJson := none, formatInstructions := "FMT" }

/-- A narrative JSON object with all four keys present but an empty title. -/
def narrativeJsonEmptyTitle : Json :=
  .obj [("title", .str ""), ("narrative", .str "A stroll."),
        ("fun_fact", .str "A fact."), ("location_awareness", .str "Near the gate.")]

/-- Oracles whose generation response parses to narrativeJsonEmptyTitle. -/
def oEmptyTitle : NarrativeOracles :=
  { embedOk := true, llmOk := true, llmJson := some narrativeJsonEmptyTitle,
    formatInstructions := "FMT" }

/-- The oracle response of Scenario D of the spec. -/
def scenarioDJson : Json :=
  .obj [("likes", .arr [.str "quiet", .str "history"]),
        ("dislikes", .arr [.str "crowded"])]

/-! ## Claims -/

/-- C1, counterexample to the claim as stated: with the FAISS index
unavailable, the context text placed into the generation prompt is the
sentinel sentence "Knowledge base is currently unavailable.", not the empty
string. -/
theorem C1_claim_counterexample :
    search_knowledge_base kbDown 5 = some kbSentinel ∧
    kbSentinel ≠ "" ∧
    (generate_narrative_with_rag wDown oPlain reqQuiet "Central Library").2 =
      [Event.prefRead "u1", Event.embedCall "quiet walk", Event.indexSearch 5,
       Event.llmCall (narrativePrompt "Nsukka" "Central Library"
         (preferencesTextOf emptyPrefsJson) "quiet walk" kbSentinel "FMT")] :=
  ⟨rfl, by decide, rfl⟩

/-- C1 (amended): whenever the FAISS index is unavailable or the chunk
corpus is empty, search_knowledge_base yields the fixed sentinel sentence,
and generate_narrative_with_rag interpolates exactly that sentinel into the
context slot of the generation prompt (it is not the empty string and not
an error). -/
theorem C1_sentinel_context (w : World) (o : NarrativeOracles)
    (request : JourneyRequest) (destinationName : String)
    (h : w.kb.faissAvailable = false ∨ w.kb.texts = [])
    (he : o.embedOk = true) :
    search_knowledge_base w.kb 5 = some kbSentinel ∧
    (generate_narrative_with_rag w o request destinationName).2 =
      (get_user_preferences w.db request.user_id).2 ++
        [Event.embedCall request.query, Event.indexSearch 5,
         Event.llmCall (narrativePrompt request.city destinationName
           (preferencesTextOf (get_user_preferences w.db request.user_id).1)
           request.query kbSentinel o.formatInstructions)] :=
  have hs := search_unavailable w.kb 5 h
  ⟨hs, generate_events_of_search w o request destinationName kbSentinel he hs⟩

/-- Witness for C1_sentinel_context at a concrete unavailable index. -/
theorem C1_sentinel_context_witness :
    search_knowledge_base wDown.kb 5 = some kbSentinel ∧
    (generate_narrative_with_rag wDown oPlain reqQuiet "Central Library").2 =
      (get_user_preferences wDown.db reqQuiet.user_id).2 ++
        [Event.embedCall reqQuiet.query, Event.indexSearch 5,
         Event.llmCall (narrativePrompt reqQuiet.city "Central Library"
           (preferencesTextOf (get_user_preferences wDown.db reqQuiet.user_id).1)
           reqQuiet.query kbSentinel oPlain.formatInstructions)] :=
  C1_sentinel_context wDown oPlain reqQuiet "Central Library" (Or.inl rfl) rfl

/-- C2, counterexample to the claim as stated: an oracle response that is
the JSON object with no keys at all (so both likes and dislikes are
missing) passes Pydantic validation through the empty-list defaults, and a
write is performed that replaces the previously stored profile. -/
theorem C2_claim_counterexample :
    (reflect_and_update_preferences wHist (some (Json.obj [])) rrLiked).2.filter
        isStoreWrite = [Event.prefWrite "u1" emptyPrefsJson] ∧
    ([Event.prefWrite "u1" emptyPrefsJson] : List Event) ≠ [] ∧
    (get_user_preferences wHist.db "u1").1 =
      Json.obj [("likes", Json.arr [Json.str "history"]), ("dislikes", Json.arr [])] ∧
    (get_user_preferences
        (reflect_and_update_preferences wHist (some (Json.obj [])) rrLiked).1.db
        "u1").1 = emptyPrefsJson ∧
    Json.obj [("likes", Json.arr [Json.str "history"]), ("dislikes", Json.arr [])] ≠
      emptyPrefsJson :=
  ⟨rfl, by simp, rfl, rfl, by simp [emptyPrefsJson]⟩

/-- C2 (amended): when the oracle response is not parseable JSON, or is
parseable but fails Pydantic validation (for example it is not a JSON
object, or a present likes/dislikes value is not a list of strings), the
reflection performs zero writes and the world is unchanged; a JSON object
that merely omits the likes/dislikes keys is not rejected — it validates
to the empty-list defaults (and is then written). -/
theorem C2_validation_gate (w : World) (request : ReflectionRequest)
    (resp : Option Json)
    (h : resp = none ∨ ∃ j, resp = some j ∧ validateUserPreferences j = none) :
    ((reflect_and_update_preferences w resp request).1 = w ∧
     (reflect_and_update_preferences w resp request).2.filter isStoreWrite = []) ∧
    validateUserPreferences (Json.obj []) = some ⟨[], []⟩ := by
  have hr := reflect_no_write w resp request h
  refine ⟨⟨by rw [hr], ?_⟩, rfl⟩
  rw [hr]
  simp [List.filter_append, prefs_events_filter_write, isStoreWrite]

/-- Witness for C2_validation_gate on a non-JSON oracle response. -/
theorem C2_validation_gate_witness :
    ((reflect_and_update_preferences wHist none rrLiked).1 = wHist ∧
     (reflect_and_update_preferences wHist none rrLiked).2.filter isStoreWrite = []) ∧
    validateUserPreferences (Json.obj []) = some ⟨[], []⟩ :=
  C2_validation_gate wHist rrLiked none (Or.inl rfl)

/-- C3, counterexample to the claim as stated: an oracle output whose
title field is present but the empty string is accepted and returned as a
successful JourneyNarrative — emptiness is not rejected. -/
theorem C3_claim_counterexample :
    (generate_narrative_with_rag wDown oEmptyTitle reqQuiet "Central Library").1 =
      Except.ok { title := "", narrative := "A stroll.", fun_fact := "A fact.",
                  location_awareness := "Near the gate." } ∧
    (JourneyNarrative.mk "" "A stroll." "A fact." "Near the gate.").title = "" :=
  ⟨rfl, rfl⟩

/-- C3 (amended): every successful generate_narrative_with_rag call returns
a JourneyNarrative parsed from a JSON object in which all four fields are
present (an output with an absent field is rejected as a format error);
the fields are however not checked for non-emptiness. -/
theorem C3_fields_present (w : World) (o : NarrativeOracles)
    (request : JourneyRequest) (destinationName : String)
    (n : JourneyNarrative) (evs : List Event)
    (h : generate_narrative_with_rag w o request destinationName = (.ok n, evs)) :
    ∃ j, o.llmJson = some j ∧ validateJourneyNarrative j = some n ∧
      ∃ fs, j = .obj fs ∧ (fs.lookup "title").isSome ∧
        (fs.lookup "narrative").isSome ∧ (fs.lookup "fun_fact").isSome ∧
        (fs.lookup "location_awareness").isSome := by
  obtain ⟨j, hj, hv⟩ := generate_ok_inversion w o request destinationName n evs h
  exact ⟨j, hj, hv, validateJourneyNarrative_some j n hv⟩

/-- Witness for C3_fields_present at a concrete successful call. -/
theorem C3_fields_present_witness :
    ∃ j, oEmptyTitle.llmJson = some j ∧
      validateJourneyNarrative j =
        some ⟨"", "A stroll.", "A fact.", "Near the gate."⟩ ∧
      ∃ fs, j = .obj fs ∧ (fs.lookup "title").isSome ∧
        (fs.lookup "narrative").isSome ∧ (fs.lookup "fun_fact").isSome ∧
        (fs.lookup "location_awareness").isSome :=
  C3_fields_present wDown oEmptyTitle reqQuiet "Central Library"
    ⟨"", "A stroll.", "A fact.", "Near the gate."⟩
    [Event.prefRead "u1", Event.embedCall "quiet walk", Event.indexSearch 5,
     Event.llmCall (narrativePrompt "Nsukka" "Central Library"
       (preferencesTextOf emptyPrefsJson) "quiet walk" kbSentinel "FMT")]
    rfl

/-- C4: get_user_preferences returns the empty profile whenever the store
is unreachable or holds no document for the user, and
generate_narrative_with_rag never surfaces a preference-read failure to
its caller. -/
theorem C4_pref_read_defaults (db : DbState) (uid : String) (w : World)
    (o : NarrativeOracles) (request : JourneyRequest) (destinationName : String) :
    ((db.reachable = false ∨ db.users.lookup uid = none) →
      (get_user_preferences db uid).1 = emptyPrefsJson) ∧
    (generate_narrative_with_rag w o request destinationName).1 ≠
      Except.error GenError.prefReadFailure := by
  constructor
  · rintro (h | h)
    · simp [get_user_preferences, h]
    · cases hdb : db.reachable <;> simp [get_user_preferences, hdb, h]
  · obtain ⟨embedOk, llmOk, llmJson, fmt⟩ := o
    cases embedOk
    · simp [generate_narrative_with_rag]
    · rcases hs : search_knowledge_base w.kb 5 with _ | ctx
      · simp [generate_narrative_with_rag, hs]
      · cases llmOk
        · simp [generate_narrative_with_rag, hs]
        · rcases llmJson with _ | j
          · simp [generate_narrative_with_rag, hs]
          · rcases hv : validateJourneyNarrative j with _ | n <;>
              simp [generate_narrative_with_rag, hs, hv]

/-- Witness for C4_pref_read_defaults at the unreachable store. -/
theorem C4_pref_read_defaults_witness :
    (get_user_preferences dbDown "ghost").1 = emptyPrefsJson ∧
    (generate_narrative_with_rag wDown oPlain reqQuiet "Central Library").1 ≠
      Except.error GenError.prefReadFailure :=
  ⟨(C4_pref_read_defaults dbDown "ghost" wDown oPlain reqQuiet "Central Library").1
      (Or.inl rfl),
   (C4_pref_read_defaults dbDown "ghost" wDown oPlain reqQuiet "Central Library").2⟩

/-- C5: when the oracle response validates and the store is reachable, the
stored profile for the user afterwards equals exactly the validated
object — prior likes/dislikes are replaced wholesale regardless of their
previous content (the world is universally quantified), and the user
document exists afterwards even if it was absent before (upsert). -/
theorem C5_wholesale_upsert (w : World) (request : ReflectionRequest)
    (j : Json) (p : UserPreferences)
    (hv : validateUserPreferences j = some p) (hr : w.db.reachable = true) :
    (get_user_preferences
        (reflect_and_update_preferences w (some j) request).1.db
        request.user_id).1 = prefsToJson p ∧
    ((reflect_and_update_preferences w (some j) request).1.db.users.lookup
        request.user_id).isSome := by
  obtain ⟨doc, hl, hp⟩ :=
    lookup_upsertUser_self w.db.users request.user_id (prefsToJson p)
  constructor
  · simp [reflect_and_update_preferences, hv, update_user_preferences, hr,
      get_user_preferences, hl, hp]
  · simp [reflect_and_update_preferences, hv, update_user_preferences, hr, hl]

/-- Witness for C5_wholesale_upsert: Scenario D of the spec, replacing the
prior history-only profile wholesale. -/
theorem C5_wholesale_upsert_witness :
    (get_user_preferences
        (reflect_and_update_preferences wHist (some scenarioDJson) rrLiked).1.db
        rrLiked.user_id).1 = prefsToJson ⟨["quiet", "history"], ["crowded"]⟩ ∧
    ((reflect_and_update_preferences wHist (some scenarioDJson) rrLiked).1.db.users.lookup
        rrLiked.user_id).isSome :=
  C5_wholesale_upsert wHist rrLiked scenarioDJson ⟨["quiet", "history"], ["crowded"]⟩
    rfl rfl

/-- C6, counterexample to the claim as stated: a corpus holding one chunk,
searched with k = 5, yields five chunks (the FAISS -1 padding wraps around
to the last chunk via Python negative indexing) instead of fewer than
five; and an unavailable index yields the sentinel sentence, not an empty
result. -/
theorem C6_claim_counterexample :
    retrievedChunks kbOne 5 =
      some ["only chunk", "only chunk", "only chunk", "only chunk", "only chunk"] ∧
    kbOne.texts.length = 1 ∧
    (["only chunk", "only chunk", "only chunk", "only chunk", "only chunk"] :
      List String).length = 5 ∧
    search_knowledge_base kbDown 5 = some kbSentinel ∧
    kbSentinel ≠ "" :=
  ⟨rfl, rfl, rfl, rfl, by decide⟩

/-- C6 (amended): when the index is available, the corpus non-empty, the
reported neighbor ids in range, and the index holds fewer than (or
exactly) k entries, the retrieval returns exactly k chunks: the ranked
chunks followed by copies of the LAST chunk of the corpus, because the -1
labels FAISS pads with wrap around under Python list indexing; when the
index or corpus is unavailable the search returns the sentinel sentence
rather than an empty result. -/
theorem C6_search_contract :
    (∀ (kb : KnowledgeBase) (k : Nat), kb.faissAvailable = true →
      kb.texts ≠ [] → (∀ i ∈ kb.order, i < kb.texts.length) →
      kb.order.length ≤ k →
      retrievedChunks kb k =
        some (kb.order.map (fun i => kb.texts.getD i "") ++
          List.replicate (k - kb.order.length) (kb.texts.getLast?.getD ""))) ∧
    (∀ (kb : KnowledgeBase) (k : Nat),
      kb.faissAvailable = false ∨ kb.texts = [] →
      search_knowledge_base kb k = some kbSentinel) :=
  ⟨fun kb k _ hne hval hlen => retrievedChunks_short_order kb k hval hne hlen,
   fun kb k h => search_unavailable kb k h⟩

/-- Witness for C6_search_contract at the one-chunk corpus and the
unavailable index. -/
theorem C6_search_contract_witness :
    retrievedChunks kbOne 5 =
      some (kbOne.order.map (fun i => kbOne.texts.getD i "") ++
        List.replicate (5 - kbOne.order.length) (kbOne.texts.getLast?.getD "")) ∧
    search_knowledge_base kbDown 5 = some kbSentinel :=
  ⟨C6_search_contract.1 kbOne 5 rfl (by decide) (by decide) (by decide),
   C6_search_contract.2 kbDown 5 (Or.inl rfl)⟩

/-- C7: both revisions of generate_narrative_with_rag perform no Preference
Store write on any path, and their only store interaction is the single
read of the requesting user profile (no store operation at all happens
when the client is unavailable). -/
theorem C7_no_store_mutation (w : World) (o : NarrativeOracles)
    (request : JourneyRequest) (destinationName : String) :
    ((generate_narrative_with_rag w o request destinationName).2.filter
        isStoreWrite = [] ∧
     (generate_narrative_with_rag w o request destinationName).2.filter
        isStoreRead =
       (if w.db.reachable then [Event.prefRead request.user_id] else [])) ∧
    ((service_generate_narrative_with_rag w o request).2.filter
        isStoreWrite = [] ∧
     (service_generate_narrative_with_rag w o request).2.filter
        isStoreRead =
       (if w.db.reachable then [Event.prefRead request.user_id] else [])) := by
  obtain ⟨t1, he1, hw1, hr1, _⟩ := generate_events_shape w o request destinationName
  obtain ⟨t2, he2, hw2, hr2, _⟩ := service_generate_events_shape w o request
  refine ⟨⟨?_, ?_⟩, ?_, ?_⟩
  · rw [he1, List.filter_append, hw1, prefs_events_filter_write]; rfl
  · rw [he1, List.filter_append, hr1, prefs_events_filter_read]; simp
  · rw [he2, List.filter_append, hw2, prefs_events_filter_write]; rfl
  · rw [he2, List.filter_append, hr2, prefs_events_filter_read]; simp

/-- C8, counterexample to the claim as stated: for a request whose query
is the empty string, the empty string itself is sent to the embedding
oracle and interpolated into the prompt goal slot — no generic goal is
substituted. -/
theorem C8_claim_counterexample :
    reqEmptyQuery.query = "" ∧
    (generate_narrative_with_rag wDown oPlain reqEmptyQuery "Central Library").2 =
      [Event.prefRead "u1", Event.embedCall "", Event.indexSearch 5,
       Event.llmCall (narrativePrompt "Nsukka" "Central Library"
         (preferencesTextOf emptyPrefsJson) "" kbSentinel "FMT")] :=
  ⟨rfl, rfl⟩

/-- C8 (amended): generate_narrative_with_rag performs no substitution for
an empty goal query: the query field is passed verbatim (empty or not) to
the embedding oracle, and interpolated verbatim into the prompt goal slot;
the generic engage-with-the-destination behavior comes only from the fixed
fallback instruction that is always part of the prompt. -/
theorem C8_query_verbatim (w : World) (o : NarrativeOracles)
    (request : JourneyRequest) (destinationName : String) :
    Event.embedCall request.query ∈
      (generate_narrative_with_rag w o request destinationName).2 ∧
    (∀ ctx, o.embedOk = true → search_knowledge_base w.kb 5 = some ctx →
      Event.llmCall (narrativePrompt request.city destinationName
          (preferencesTextOf (get_user_preferences w.db request.user_id).1)
          request.query ctx o.formatInstructions) ∈
        (generate_narrative_with_rag w o request destinationName).2) := by
  constructor
  · obtain ⟨t, he, _, _, hm⟩ := generate_events_shape w o request destinationName
    rw [he]
    exact List.mem_append_right _ hm
  · intro ctx hemb hs
    rw [generate_events_of_search w o request destinationName ctx hemb hs]
    simp

/-- Witness for C8_query_verbatim at the empty query. -/
theorem C8_query_verbatim_witness :
    Event.embedCall reqEmptyQuery.query ∈
      (generate_narrative_with_rag wDown oPlain reqEmptyQuery "Central Library").2 ∧
    Event.llmCall (narrativePrompt reqEmptyQuery.city "Central Library"
        (preferencesTextOf (get_user_preferences wDown.db reqEmptyQuery.user_id).1)
        reqEmptyQuery.query kbSentinel oPlain.formatInstructions) ∈
      (generate_narrative_with_rag wDown oPlain reqEmptyQuery "Central Library").2 :=
  ⟨(C8_query_verbatim wDown oPlain reqEmptyQuery "Central Library").1,
   (C8_query_verbatim wDown oPlain reqEmptyQuery "Central Library").2
     kbSentinel rfl rfl⟩

/-- C9: every profile document the reflection step writes to the store is
the .dict() of a validated UserPreferences value — an object with exactly
the keys likes and dislikes, each an array of strings (extra oracle keys
are stripped by validation); and a key the oracle omits validates to the
empty list. -/
theorem C9_written_shape (w : World) (resp : Option Json)
    (request : ReflectionRequest) (uid : String) (pj : Json)
    (hmem : Event.prefWrite uid pj ∈
      (reflect_and_update_preferences w resp request).2) :
    (∃ p : UserPreferences, pj = prefsToJson p) ∧
    (∀ fs p, validateUserPreferences (.obj fs) = some p →
      ((fs.lookup "likes" = none → p.likes = []) ∧
       (fs.lookup "dislikes" = none → p.dislikes = []))) := by
  constructor
  · rcases resp with _ | j
    · cases hdb : w.db.reachable <;>
        simp [reflect_and_update_preferences, get_user_preferences, hdb] at hmem
    · rcases hv : validateUserPreferences j with _ | p
      · cases hdb : w.db.reachable <;>
          simp [reflect_and_update_preferences, hv, get_user_preferences, hdb] at hmem
      · cases hdb : w.db.reachable
        · simp [reflect_and_update_preferences, hv, update_user_preferences,
            get_user_preferences, hdb] at hmem
        · simp [reflect_and_update_preferences, hv, update_user_preferences,
            get_user_preferences, hdb] at hmem
          exact ⟨p, hmem.2⟩
  · intro fs p hv2
    rcases hd : fieldStrList fs "dislikes" with _ | ds
    · rcases hlk : fieldStrList fs "likes" with _ | ls <;>
        simp [validateUserPreferences, hlk, hd] at hv2
    · rcases hlk : fieldStrList fs "likes" with _ | ls
      · simp [validateUserPreferences, hlk] at hv2
      · simp [validateUserPreferences, hlk, hd] at hv2
        constructor
        · intro hnone
          have : ls = [] := by
            have := hlk
            simp [fieldStrList, hnone] at this
            exact this
          rw [← hv2, this]
        · intro hnone
          have : ds = [] := by
            have := hd
            simp [fieldStrList, hnone] at this
            exact this
          rw [← hv2, this]

/-- Witness for C9_written_shape at the Scenario D write. -/
theorem C9_written_shape_witness :
    (∃ p : UserPreferences,
      prefsToJson ⟨["quiet", "history"], ["crowded"]⟩ = prefsToJson p) ∧
    (∀ fs p, validateUserPreferences (.obj fs) = some p →
      ((fs.lookup "likes" = none → p.likes = []) ∧
       (fs.lookup "dislikes" = none → p.dislikes = []))) :=
  C9_written_shape wHist (some scenarioDJson) rrLiked "u1"
    (prefsToJson ⟨["quiet", "history"], ["crowded"]⟩)
    (by
      have hv : validateUserPreferences scenarioDJson =
          some ⟨["quiet", "history"], ["crowded"]⟩ := rfl
      simp [reflect_and_update_preferences, hv, update_user_preferences,
        get_user_preferences, wHist, dbHist, rrLiked])

/-- C10: when the store client is unavailable at write time,
update_user_preferences performs no write and returns normally (its Python
return value is None on every path, so a caller cannot distinguish this
silent skip from a completed write by the return value), and consequently a
reflection whose oracle output validated successfully persists nothing. -/
theorem C10_silent_skip (db : DbState) (uid : String) (prefs : Json)
    (w : World) (request : ReflectionRequest) (j : Json) (p : UserPreferences)
    (h : db.reachable = false) (hw : w.db.reachable = false)
    (hv : validateUserPreferences j = some p) :
    update_user_preferences db uid prefs = (db, []) ∧
    (reflect_and_update_preferences w (some j) request).1 = w ∧
    (reflect_and_update_preferences w (some j) request).2.filter isStoreWrite = [] := by
  refine ⟨by simp [update_user_preferences, h], ?_, ?_⟩
  · simp [reflect_and_update_preferences, hv, update_user_preferences, hw]
  · simp [reflect_and_update_preferences, hv, update_user_preferences, hw,
      List.filter_append, prefs_events_filter_write, isStoreWrite]

/-- Witness for C10_silent_skip at the unreachable store with the
Scenario D response. -/
theorem C10_silent_skip_witness :
    update_user_preferences dbDown "u1" scenarioDJson = (dbDown, []) ∧
    (reflect_and_update_preferences wUnreach (some scenarioDJson) rrLiked).1 = wUnreach ∧
    (reflect_and_update_preferences wUnreach (some scenarioDJson) rrLiked).2.filter
      isStoreWrite = [] :=
  C10_silent_skip dbDown "u1" scenarioDJson wUnreach rrLiked scenarioDJson
    ⟨["quiet", "history"], ["crowded"]⟩ rfl rfl rfl

end Atlas
